import Mathlib

/-!
Shallow embedding of the xgfone/go-http-service repository (package httpsvc):
an action-service framework over HTTP. Go source files embedded here:
service.go (registry, middleware, dispatcher), the response-writer wrapper,
the Context (metadata, respond/bind machinery), binder.go and constant.go.

Modelling conventions:
* Go maps become functions `String -> Option _` (only point lookups and point
  updates are used by the embedded operations).
* Pointer-mutation becomes explicit state passing: a Go method that mutates
  `*Context` and returns `error` becomes `Context -> Context × Option GoError`.
* The JSON codec (an excluded external collaborator per the repository's
  design) is embedded at the level of a small JSON value AST; serialization
  to the wire is a straightforward rendering function.
* Go `error` interface values are embedded as the inductive `GoError`, whose
  constructors are exactly the dynamic kinds distinguished by the code's type
  switches: a value of the concrete `Error` type, a value exposing the
  `CodeError() Error` capability, and any other error.
* `nil`-pointer dereference (e.g. using a Context outside a request) is
  outside the embedding; such branches return inert defaults and are never
  relied upon by any theorem.
-/

namespace HttpSvc

/-! ### constant.go -/

def CharsetUTF8 : String := "charset=UTF-8"

def MIMEApplicationJSON : String := "application/json"

def MIMEApplicationJSONCharsetUTF8 : String := MIMEApplicationJSON ++ "; " ++ CharsetUTF8

def MIMEApplicationXML : String := "application/xml"

def MIMEApplicationXMLCharsetUTF8 : String := MIMEApplicationXML ++ "; " ++ CharsetUTF8

def MIMEApplicationForm : String := "application/x-www-form-urlencoded"

def MIMEMultipartForm : String := "multipart/form-data"

/-! ### JSON values (embedding of the encoding/json collaborator) -/

/-- A small JSON value AST: enough for the wire shapes this package produces
(strings, objects, null); `obj` keeps fields in encode order. -/
inductive JValue where
  | null : JValue
  | str : String → JValue
  | obj : List (String × JValue) → JValue

mutual

/-- Render a JSON value to its wire text (string escaping is not modelled;
all strings used by the embedded code are escape-free). -/
def JValue.render : JValue → String
  | .null => "null"
  | .str s => "\"" ++ s ++ "\""
  | .obj fs => "\x7b" ++ JValue.renderFields fs ++ "\x7d"

/-- Render the comma-separated fields of a JSON object. -/
def JValue.renderFields : List (String × JValue) → String
  | [] => ""
  | [(k, v)] => "\"" ++ k ++ "\":" ++ JValue.render v
  | (k, v) :: f :: fs =>
      "\"" ++ k ++ "\":" ++ JValue.render v ++ "," ++ JValue.renderFields (f :: fs)

end

/-- Field lookup in a JSON object (first binding wins, as encoding/json
never emits duplicate keys). -/
def JValue.getField : JValue → String → Option JValue
  | .obj fs, k => fs.lookup k
  | _, _ => none

/-- Whether a JSON object carries the given field. -/
def JValue.hasField (j : JValue) (k : String) : Bool :=
  (j.getField k).isSome

/-! ### Error descriptors

Modelled from the spec: the repository's error definitions file is not under
src/ (only its uses are). The spec fixes the shape: an error descriptor is a
(code, message) pair, code empty means "no error" (spec section 3), the error
kinds are InvalidAction, InvalidParameter, UnsupportedProtocol and
ServerError (spec section 7), and WithMessage is used by callers to replace
the message while keeping the code (usage in service.go and the Context). -/

/-- Modelled from the spec: the typed error descriptor, a (code, message)
pair; the concrete `Error` struct of the repository's missing error file.
Field names and order follow the uses in src (`Error{e.Code, e.Message}`,
`_err.Code == ""`). -/
structure Error where
  Code : String
  Message : String
deriving DecidableEq, Repr

/-- Modelled from the spec: keep the code, replace the message. The Go
original formats the message with fmt.Sprintf; the embedding receives the
already-formatted text. -/
def Error.WithMessage (e : Error) (msg : String) : Error :=
  { e with Message := msg }

/-- Modelled from the spec: the InvalidAction error kind. -/
def ErrInvalidAction : Error := { Code := "InvalidAction", Message := "invalid action" }

/-- Modelled from the spec: the InvalidParameter error kind. -/
def ErrInvalidParameter : Error := { Code := "InvalidParameter", Message := "invalid parameter" }

/-- Modelled from the spec: the UnsupportedProtocol error kind. -/
def ErrUnsupportedProtocol : Error :=
  { Code := "UnsupportedProtocol", Message := "unsupported protocol" }

/-- Modelled from the spec: the ServerError (catch-all) error kind. -/
def ErrServerError : Error := { Code := "ServerError", Message := "server error" }

/-- A Go `error` interface value, distinguished exactly as the type switches
in Respond and Bind distinguish them: a value of the concrete `Error` type, a
value exposing the `CodeError() Error` capability (carrying the descriptor it
produces and its `Error()` text), or any other error (carrying its `Error()`
text). `Option GoError` stands for a possibly-nil `error`. -/
inductive GoError where
  | typed : Error → GoError
  | codeErr : Error → String → GoError
  | other : String → GoError
deriving DecidableEq, Repr

/-! ### The raw transport sink (the http.ResponseWriter handed in by the
host server) and the response-writer wrapper -/

/-- The underlying transport response: headers, the status sent by the first
forwarded WriteHeader, and the accumulated body bytes (as a string). -/
structure RawResponse where
  header : List (String × String)
  status : Option Nat
  body : String
deriving DecidableEq, Repr

def RawResponse.empty : RawResponse := { header := [], status := none, body := "" }

/-- Set a header key to a value, replacing any previous binding. -/
def setHeader (h : List (String × String)) (key value : String) : List (String × String) :=
  (h.filter (fun kv => kv.1 ≠ key)) ++ [(key, value)]

/-- The proxy of http.ResponseWriter (responseWriter in the source): tracks
cumulative size, whether the header was flushed, and the status code.
`ResponseWriter: nil` (detached) is modelled as the empty sink. -/
structure responseWriter where
  ResponseWriter : RawResponse
  Size : Nat
  Wrote : Bool
  Status : Nat
deriving DecidableEq, Repr

/-- newResponseWriter in the source: fresh wrapper around w, status 200. -/
def newResponseWriter (w : RawResponse) : responseWriter :=
  { ResponseWriter := w, Size := 0, Wrote := false, Status := 200 }

namespace responseWriter

/-- WriteHeader: only the first call takes effect; it records the status and
forwards it to the underlying writer. -/
def WriteHeader (r : responseWriter) (code : Nat) : responseWriter :=
  if !r.Wrote then
    { r with
      Wrote := true
      Status := code
      ResponseWriter := { r.ResponseWriter with status := some code } }
  else r

/-- Write: empty input is a no-op; otherwise ensure the header is flushed
with 200, forward the bytes, and add to the size. Returns the byte count
written (the underlying sink accepts everything). -/
def Write (r : responseWriter) (b : String) : responseWriter × Nat :=
  if b.length = 0 then (r, 0)
  else
    let r := r.WriteHeader 200
    ({ r with
        ResponseWriter := { r.ResponseWriter with body := r.ResponseWriter.body ++ b }
        Size := r.Size + b.length }, b.length)

/-- WriteString: same behavior as Write (the source differs only in the
io.WriteString call). -/
def WriteString (r : responseWriter) (s : String) : responseWriter × Nat :=
  r.Write s

/-- Reset: back to the initialized wrapper around w. -/
def Reset (r : responseWriter) (w : RawResponse) : responseWriter :=
  let _ := r
  newResponseWriter w

end responseWriter

/-! ### The inbound request (the http.Request handed in by the host server) -/

/-- An inbound HTTP request, at the granularity the embedded code consumes:
method, headers, the parsed URL query, the content length, and the request
body already parsed by the JSON codec (`none` when the body is not a JSON
document). Header keys are matched verbatim (canonicalization not modelled;
all embedded uses agree on capitalization). -/
structure Request where
  Method : String
  Header : List (String × String)
  query : List (String × String)
  ContentLength : Int
  Body : Option JValue

/-- http.Header.Get: first binding for the key, or "". -/
def headerGet (h : List (String × String)) (key : String) : String :=
  (h.lookup key).getD ""

/-- url.Values.Get: first value bound to the key, or "". -/
def valuesGet (q : List (String × String)) (key : String) : String :=
  (q.lookup key).getD ""

/-! ### setContentType and the Response envelope -/

/-- setContentType: does nothing on "", otherwise sets the Content-Type
header to ct. (The source's switch over known MIME constants only selects a
precomputed slice holding exactly ct, an allocation optimization; every case,
including the default, stores ct under Content-Type.) -/
def setContentType (header : List (String × String)) (ct : String) :
    List (String × String) :=
  if ct = "" then header else setHeader header "Content-Type" ct

/-- The exported Response struct: RequestId (omitempty), Error (omitempty),
Data (omitempty). `Data = none` stands for a nil interface value. -/
structure Response where
  RequestId : String
  Error : Error
  Data : Option JValue

/-! ### Context -/

/-- The target of a Bind call (the `v interface\x7b\x7d` pointee): a struct
viewed as its bindable fields, each field keyed by its binding name (struct
tag or field name) and holding a JSON-level value. -/
def BindTarget := List (String × JValue)

/-- The data fields of a Context (everything except the hook fields). The
hooks are split into the outer `Context` structure because in Go they are
function fields receiving `*Context` itself; the embedding gives them this
hook-free core (strict positivity). -/
structure ContextCore where
  Action : String
  Version : String
  RequestID : String
  Data : Option JValue
  req : Option Request
  res : responseWriter
  query : Option (List (String × String))

/-- The per-request Context: its data core plus the four override hooks
(Binder, SetDefault, Validate, Render). Hooks that in Go mutate data through
a pointer return the updated value here. -/
structure Context where
  core : ContextCore
  Binder : Option (ContextCore → BindTarget → BindTarget × Option GoError)
  SetDefault : Option (BindTarget → BindTarget × Option GoError)
  Validate : Option (BindTarget → Option GoError)
  Render : Option (ContextCore → Response → ContextCore × Option GoError)

/-- NewContext: fresh context with a fresh response wrapper around a nil
(empty) sink; every other field zero / unset. -/
def NewContext : Context :=
  { core :=
      { Action := ""
        Version := ""
        RequestID := ""
        Data := none
        req := none
        res := newResponseWriter RawResponse.empty
        query := none }
    Binder := none
    SetDefault := none
    Validate := none
    Render := none }

namespace Context

/-- reset: detach the request, drop the cached query, reset the response
wrapper around a nil (empty) sink. Nothing else is touched. -/
def reset (c : Context) : Context :=
  { c with core :=
      { c.core with
          req := none
          query := none
          res := c.core.res.Reset RawResponse.empty } }

/-- StatusCode: the wrapper's status. -/
def StatusCode (c : Context) : Nat := c.core.res.Status

/-- IsResponded: the wrapper's wrote flag. -/
def IsResponded (c : Context) : Bool := c.core.res.Wrote

/-- SetReqResp: bind the context to the current request/response pair. The
wrapper's Size/Wrote/Status are left as they are (they were cleared by the
previous reset). -/
def SetReqResp (c : Context) (req : Request) (resp : RawResponse) : Context :=
  { c with core :=
      { c.core with
          req := some req
          res := { c.core.res with ResponseWriter := resp } } }

/-- Query: parse (here: read off the request) and cache the query values.
A nil request (outside a request cycle) yields the empty query. -/
def Query (c : Context) : Context × List (String × String) :=
  match c.core.query with
  | some q => (c, q)
  | none =>
      let q := match c.core.req with
               | some r => r.query
               | none => []
      ({ c with core := { c.core with query := some q } }, q)

/-- GetQuery: c.Query().Get(key). -/
def GetQuery (c : Context) (key : String) : Context × String :=
  let (c, q) := c.Query
  (c, valuesGet q key)

/-- GetReqHeader: c.req.Header.Get(key); "" outside a request cycle. -/
def GetReqHeader (c : Context) (key : String) : String :=
  match c.core.req with
  | some r => headerGet r.Header key
  | none => ""

/-- WriteHeader (Context implements http.ResponseWriter): delegate to the
wrapper. -/
def WriteHeader (c : Context) (code : Nat) : Context :=
  { c with core := { c.core with res := c.core.res.WriteHeader code } }

/-- Write (Context implements http.ResponseWriter): delegate to the
wrapper. -/
def Write (c : Context) (b : String) : Context × Nat :=
  let (res, n) := c.core.res.Write b
  ({ c with core := { c.core with res := res } }, n)

/-- Stream: set the content type, flush the header with the given code, and
copy the stream (here: the already-buffered content) to the wrapper. The
source's switch over Bytes()/WriterTo/CopyBuffer only picks a copying
strategy; all three write the stream's content. -/
def Stream (c : Context) (code : Nat) (contentType : String) (content : String) :
    Context × Option GoError :=
  let res := { c.core.res with
                ResponseWriter := { c.core.res.ResponseWriter with
                    header := setContentType c.core.res.ResponseWriter.header contentType } }
  let res := res.WriteHeader code
  let (res, _) := res.Write content
  ({ c with core := { c.core with res := res } }, none)

/-- JSON: encode the data (with the trailing newline the json.Encoder
appends), then Stream it with status 200 and the JSON content type. -/
def JSON (c : Context) (data : JValue) : Context × Option GoError :=
  c.Stream 200 MIMEApplicationJSONCharsetUTF8 (data.render ++ "\n")

end Context

/-! ### Responding -/

/-- The type switch at the top of Context.Respond, classifying an arbitrary
error value into the envelope's error descriptor: nil yields the empty
descriptor; a value of the concrete Error type is copied verbatim; a value
exposing the CodeError capability yields the descriptor it produces; any
other error yields a ServerError descriptor carrying its message text. -/
def classifyRespondErr : Option GoError → Error
  | none => { Code := "", Message := "" }
  | some (.typed e) => { Code := e.Code, Message := e.Message }
  | some (.codeErr e _) => e
  | some (.other msg) => ErrServerError.WithMessage msg

/-- The JSON object produced for the local Resp struct inside Respond, with
encoding/json omitempty semantics: RequestId omitted when "", Error (an
interface field there) present exactly when Respond set it, i.e. when the
descriptor's code is non-empty, Data omitted when nil. -/
def respEnvelope (requestId : String) (e : Error) (data : Option JValue) : JValue :=
  .obj ((if requestId = "" then [] else [("RequestId", .str requestId)])
     ++ (if e.Code = "" then []
         else [("Error", .obj [("Code", .str e.Code), ("Message", .str e.Message)])])
     ++ (match data with
         | none => []
         | some d => [("Data", d)]))

namespace Context

/-- Respond: classify the error, then either delegate the full envelope to
the Render hook, or JSON-encode the envelope (the two source branches on
`_err.Code == ""` are both covered by respEnvelope's conditional Error
field). -/
def Respond (c : Context) (data : Option JValue) (err : Option GoError) :
    Context × Option GoError :=
  let e := classifyRespondErr err
  match c.Render with
  | some render =>
      let p := render c.core { RequestId := c.core.RequestID, Error := e, Data := data }
      ({ c with core := p.1 }, p.2)
  | none => c.JSON (respEnvelope c.core.RequestID e data)

/-- Success: Respond with the data and a nil error. -/
def Success (c : Context) (data : Option JValue) : Context × Option GoError :=
  c.Respond data none

/-- Failure: Respond with nil data and the error. -/
def Failure (c : Context) (err : Option GoError) : Context × Option GoError :=
  c.Respond none err

end Context

/-- Decoding of a wire envelope back into the exported Response struct, at
the JSON-object level: an absent RequestId decodes to "", an absent Error
decodes to the zero descriptor, an absent Data decodes to nil. A non-object
document does not decode. -/
def decodeResponse (j : JValue) : Option Response :=
  match j with
  | .obj _ =>
      some
        { RequestId :=
            match j.getField "RequestId" with
            | some (.str s) => s
            | _ => ""
          Error :=
            match j.getField "Error" with
            | some e =>
                { Code :=
                    match e.getField "Code" with
                    | some (.str s) => s
                    | _ => ""
                  Message :=
                    match e.getField "Message" with
                    | some (.str s) => s
                    | _ => "" }
            | none => { Code := "", Message := "" }
          Data := j.getField "Data" }
  | _ => none

/-! ### Binding -/

/-- Modelled from the spec: BindURLValues (repository code not under src/)
binds parsed query parameters into the target by the struct-tag-or-field-name
convention: every target field whose binding key appears in the query
receives that query value; other fields keep their value. The tag argument
selects which struct tag names the fields ("query"); the embedded target is
already keyed by those names. -/
def BindURLValues (v : BindTarget) (query : List (String × String)) (tag : String) :
    BindTarget × Option GoError :=
  let _ := tag
  (v.map (fun f =>
      match query.lookup f.1 with
      | some s => (f.1, JValue.str s)
      | none => f), none)

/-- Modelled from the spec: the default body codec (encoding/json, an
excluded external collaborator) decoding the request body into the target:
a JSON object sets every matching field; a missing or non-object body fails
with an untyped decode error. -/
def jsonDecodeBody (body : Option JValue) (v : BindTarget) :
    BindTarget × Option GoError :=
  match body with
  | some (.obj fs) =>
      (v.map (fun f =>
          match fs.lookup f.1 with
          | some jv => (f.1, jv)
          | none => f), none)
  | _ => (v, some (.other "json: cannot unmarshal request body"))

/-- The type switch at the bottom of Context.Bind: nil and values of the
concrete Error type pass through; every other error is wrapped into an
InvalidParameter descriptor carrying the original message text. -/
def wrapBindErr : Option GoError → Option GoError
  | none => none
  | some (.typed e) => some (.typed e)
  | some (.codeErr _ msg) => some (.typed (ErrInvalidParameter.WithMessage msg))
  | some (.other msg) => some (.typed (ErrInvalidParameter.WithMessage msg))

namespace Context

/-- The tail of Context.Bind, shared by every non-returning branch of the
structural-bind switch: on structural success run SetDefault (when set),
then - if that succeeded - Validate (when set); finally apply the wrapping
type switch. -/
def bindPost (c : Context) (v : BindTarget) (err : Option GoError) :
    Context × BindTarget × Option GoError :=
  match err with
  | none =>
      let (v, err) :=
        match c.SetDefault with
        | some sd => sd v
        | none => (v, none)
      match err with
      | none =>
          let err :=
            match c.Validate with
            | some vl => vl v
            | none => none
          (c, v, wrapBindErr err)
      | some e => (c, v, wrapBindErr (some e))
  | some e => (c, v, wrapBindErr (some e))

/-- Bind: dispatch to the Binder override when set; otherwise GET binds from
the (cached) query via BindURLValues, POST with positive content length
binds from the body via the JSON codec, POST with no body binds nothing, and
any other method returns an UnsupportedProtocol error immediately (skipping
SetDefault, Validate and the wrapping switch). A nil request (outside a
request cycle, a nil dereference in Go) is inert. -/
def Bind (c : Context) (v : BindTarget) : Context × BindTarget × Option GoError :=
  match c.Binder with
  | some binder =>
      let (v, err) := binder c.core v
      c.bindPost v err
  | none =>
      match c.core.req with
      | none => (c, v, none)
      | some r =>
          match r.Method with
          | "GET" =>
              let (c, q) := c.Query
              let (v, err) := BindURLValues v q "query"
              c.bindPost v err
          | "POST" =>
              if r.ContentLength > 0 then
                let (v, err) := jsonDecodeBody r.Body v
                c.bindPost v err
              else
                c.bindPost v none
          | _ =>
              (c, v, some (.typed (ErrUnsupportedProtocol.WithMessage
                ("unsupported method '" ++ r.Method ++ "'"))))

end Context

/-! ### The Service: registry, middleware, dispatcher -/

/-- Handler: the handler of the service (func(*Context) error). -/
def Handler := Context → Context × Option GoError

/-- Middleware: the handler middleware (func(Handler) Handler). -/
def Middleware := Handler → Handler

/-- The Service. Go maps become point-lookup functions; the sync.RWMutex,
the context pool's laziness and the buffer pool are concurrency/allocation
machinery with no sequential content - the context pool is kept (as the list
of pooled contexts) because context reuse is observable. The composed
`handler` field is not stored: Use rebuilds it deterministically from `mws`
around the live handleRequest, so it is recovered as `composedHandler`. -/
structure Service where
  NewContext : Option Context
  GetAction : Option (Request → String)
  GetVersion : Option (Request → String)
  GetRequestID : Option (Request → String)
  mws : List Middleware
  handlers : String → Option Handler
  mappings : String → Option String
  ctxpool : List Context

/-- NewService: empty registry, no middlewares, no hooks, empty pool. -/
def NewService : Service :=
  { NewContext := none
    GetAction := none
    GetVersion := none
    GetRequestID := none
    mws := []
    handlers := fun _ => none
    mappings := fun _ => none
    ctxpool := [] }

namespace Service

/-- Use: append the middlewares to the global list (the composed handler is
rebuilt from the whole updated list; here it is the derived
composedHandler). -/
def Use (s : Service) (mws : List Middleware) : Service :=
  { s with mws := s.mws ++ mws }

/-- Register: panics (none) on an empty name; otherwise wraps the handler
with the per-action middlewares from the last to the first and stores the
wrapped handler under the name, replacing any previous entry. (A nil handler
also panics in Go; handlers are total values here.) -/
def Register (s : Service) (name : String) (handler : Handler)
    (mws : List Middleware) : Option Service :=
  if name = "" then none
  else
    let handler := mws.foldr (fun m h => m h) handler
    some { s with handlers := fun n => if n = name then some handler else s.handlers n }

/-- Unregister: panics (none) on an empty name; otherwise removes the entry
for the name. -/
def Unregister (s : Service) (name : String) : Option Service :=
  if name = "" then none
  else some { s with handlers := fun n => if n = name then none else s.handlers n }

/-- Mapping: panics (none) when either name is empty; otherwise records the
alias fromName -> toName. -/
def Mapping (s : Service) (fromName toName : String) : Option Service :=
  if fromName = "" ∨ toName = "" then none
  else some { s with mappings := fun n => if n = fromName then some toName else s.mappings n }

/-- getHandler: direct handler table first; on a miss, one alias hop and one
re-lookup of the handler table. `none` is (nil, false). -/
def getHandler (s : Service) (name : String) : Option Handler :=
  match s.handlers name with
  | some h => some h
  | none =>
      match s.mappings name with
      | some name => s.handlers name
      | none => none

/-- handleRequest: the base dispatch function. An empty action name or an
unresolvable one produces an InvalidAction error without invoking any
handler; otherwise the resolved handler runs. -/
def handleRequest (s : Service) : Handler := fun c =>
  if c.core.Action = "" then
    (c, some (.typed (ErrInvalidAction.WithMessage "no action")))
  else
    match s.getHandler c.core.Action with
    | some h => h c
    | none =>
        (c, some (.typed (ErrInvalidAction.WithMessage
          ("invalid action '" ++ c.core.Action ++ "'"))))

/-- The composed top-level handler: the global middlewares folded from the
last to the first around handleRequest, so mws[0] is outermost. This is the
value Go stores in s.handler and rebuilds on every Use. -/
def composedHandler (s : Service) : Handler :=
  s.mws.foldr (fun m h => m h) s.handleRequest

/-- The RUN_CHAIN / ENSURE_RESPONDED line of ServeHTTP:
`if err := s.handler(c); !c.res.Wrote \x7b c.Respond(nil, err) \x7d`. -/
def runChain (s : Service) (c : Context) : Context :=
  let (c, err) := s.composedHandler c
  if c.core.res.Wrote then c else (c.Respond none err).1

/-- ServeHTTP: draw a context from the pool (or construct one, via the
NewContext hook when set), bind it to the request/response pair, populate
Action / Version / RequestID (custom extractors when set, otherwise the
X-Action header falling back to the Action query parameter, the X-Version
header, and the X-Request-Id header), run the composed chain, force a
Respond when nothing was written, then reset the context and return it to
the pool. Returns the updated service (pool) and the transport response. -/
def ServeHTTP (s : Service) (w : RawResponse) (r : Request) : Service × RawResponse :=
  let (c, pool) :=
    match s.ctxpool with
    | c :: rest => (c, rest)
    | [] =>
        ((match s.NewContext with
          | some c0 => c0
          | none => HttpSvc.NewContext), [])
  let c := c.SetReqResp r w
  let c :=
    match s.GetAction with
    | some f => { c with core := { c.core with Action := f r } }
    | none =>
        let a := c.GetReqHeader "X-Action"
        if a = "" then
          let (c, a) := c.GetQuery "Action"
          { c with core := { c.core with Action := a } }
        else
          { c with core := { c.core with Action := a } }
  let c :=
    match s.GetVersion with
    | some f => { c with core := { c.core with Version := f r } }
    | none => { c with core := { c.core with Version := c.GetReqHeader "X-Version" } }
  let c :=
    match s.GetRequestID with
    | some f => { c with core := { c.core with RequestID := f r } }
    | none => { c with core := { c.core with RequestID := c.GetReqHeader "X-Request-Id" } }
  let c := s.runChain c
  let w := c.core.res.ResponseWriter
  let c := c.reset
  ({ s with ctxpool := pool ++ [c] }, w)

/-- Scenario helper: Register on a known-good (non-empty) name, defaulting
to the unchanged service on the (never-taken) panic branch. -/
def registerD (s : Service) (name : String) (handler : Handler)
    (mws : List Middleware) : Service :=
  (s.Register name handler mws).getD s

/-- Scenario helper: Unregister, defaulting on the panic branch. -/
def unregisterD (s : Service) (name : String) : Service :=
  (s.Unregister name).getD s

/-- Scenario helper: Mapping, defaulting on the panic branch. -/
def mappingD (s : Service) (fromName toName : String) : Service :=
  (s.Mapping fromName toName).getD s

end Service

/-! ## Shared helper lemmas -/

theorem Service.Register_eq_some_iff {s : Service} {name : String} {h : Handler}
    {mws : List Middleware} {s' : Service} :
    s.Register name h mws = some s' ↔
      name ≠ "" ∧
        s' = { s with handlers :=
                fun n => if n = name then some (mws.foldr (fun m hh => m hh) h)
                         else s.handlers n } := by
  unfold Service.Register
  by_cases hn : name = "" <;> simp [hn, eq_comm]

theorem Service.Unregister_eq_some_iff {s : Service} {name : String} {s' : Service} :
    s.Unregister name = some s' ↔
      name ≠ "" ∧
        s' = { s with handlers := fun n => if n = name then none else s.handlers n } := by
  unfold Service.Unregister
  by_cases hn : name = "" <;> simp [hn, eq_comm]

theorem Service.Mapping_eq_some_iff {s : Service} {fromName toName : String} {s' : Service} :
    s.Mapping fromName toName = some s' ↔
      fromName ≠ "" ∧ toName ≠ "" ∧
        s' = { s with mappings :=
                fun n => if n = fromName then some toName else s.mappings n } := by
  unfold Service.Mapping
  by_cases h1 : fromName = "" <;> by_cases h2 : toName = "" <;>
    simp [h1, h2, eq_comm]

theorem Service.getHandler_of_handlers_eq_some {s : Service} {name : String} {h : Handler}
    (hh : s.handlers name = some h) : s.getHandler name = some h := by
  simp [Service.getHandler, hh]

theorem Service.getHandler_of_handlers_eq_none {s : Service} {name : String}
    (hh : s.handlers name = none) :
    s.getHandler name = match s.mappings name with
                        | some t => s.handlers t
                        | none => none := by
  simp [Service.getHandler, hh]

/-- A do-nothing handler, used by concrete scenarios. -/
def handlerNoop : Handler := fun c => (c, none)

/-- A handler that never writes and stores nothing, distinguishable from
handlerNoop by the error it returns; used by concrete scenarios. -/
def handlerErr : Handler := fun c => (c, some (.other "h2"))

/-! ## C1 -/

/-- C1 (amended): for every non-empty action name A and handler H,
Register(A, H) with no per-action middlewares succeeds (no
duplicate-registration error), after it resolving A returns H, a later
Register of the same name replaces the stored handler (last write wins), and
after Unregister(A) resolving A reports not-found provided no alias maps A
to a different still-registered action name. -/
theorem C1_register_resolve_unregister (s : Service) (name : String) (h : Handler)
    (hname : name ≠ "") :
    (s.Register name h []).isSome = true ∧
    (∀ s', s.Register name h [] = some s' → s'.getHandler name = some h) ∧
    (∀ h2 s' s'', s.Register name h [] = some s' → s'.Register name h2 [] = some s'' →
      s''.getHandler name = some h2) ∧
    (∀ s', s.Unregister name = some s' →
      (∀ t, s.mappings name = some t → t = name ∨ s.handlers t = none) →
      s'.getHandler name = none) := by
  refine ⟨?_, ?_, ?_, ?_⟩
  · simp [Service.Register, hname]
  · intro s' hs'
    obtain ⟨-, rfl⟩ := Service.Register_eq_some_iff.mp hs'
    exact Service.getHandler_of_handlers_eq_some (by simp)
  · intro h2 s' s'' hs' hs''
    obtain ⟨-, rfl⟩ := Service.Register_eq_some_iff.mp hs'
    obtain ⟨-, rfl⟩ := Service.Register_eq_some_iff.mp hs''
    exact Service.getHandler_of_handlers_eq_some (by simp)
  · intro s' hs' halias
    obtain ⟨-, rfl⟩ := Service.Unregister_eq_some_iff.mp hs'
    rw [Service.getHandler_of_handlers_eq_none (by simp)]
    simp only
    cases hm : s.mappings name with
    | none => rfl
    | some t =>
        rcases halias t hm with rfl | hnone
        · simp
        · by_cases ht : t = name <;> simp [ht, hnone]

/-- C1 counterexample: the claim's unconditional "after Unregister(A),
resolving A reports not-found" fails when an alias maps A to a
still-registered action: after Register("a"), Register("b"),
Mapping("a", "b"), Unregister("a"), resolving "a" still reports found
(the alias hop finds "b"'s handler). -/
theorem C1_counterexample :
    (((((NewService.registerD "a" handlerNoop []).registerD "b" handlerErr
        []).mappingD "a" "b").unregisterD "a").getHandler "a").isSome = true := by
  decide

/-- C1 witness: the amended theorem applied at a concrete registry. -/
theorem C1_witness :
    ((NewService.Register "a" handlerNoop []).isSome = true ∧
    (∀ s', NewService.Register "a" handlerNoop [] = some s' →
      s'.getHandler "a" = some handlerNoop) ∧
    (∀ h2 s' s'', NewService.Register "a" handlerNoop [] = some s' →
      s'.Register "a" h2 [] = some s'' → s''.getHandler "a" = some h2) ∧
    (∀ s', NewService.Unregister "a" = some s' →
      (∀ t, NewService.mappings "a" = some t → t = "a" ∨ NewService.handlers t = none) →
      s'.getHandler "a" = none)) :=
  C1_register_resolve_unregister NewService "a" handlerNoop (by decide)

/-! ## C2 -/

/-- C2: resolution looks up the direct handler table first (a direct hit
never consults the alias table); only on a miss is the alias table consulted
for a canonical name and the handler table re-looked-up once - the result
then depends only on the handler table at that canonical name, so a chain of
two aliases is not followed and a missing target is a plain not-found (no
error). Consequently, after Mapping(F, T) and a later Register(T, H),
resolving F returns H (provided F itself is not directly registered, per the
direct-first rule); after additionally Unregister(T), resolving F reports
not-found. -/
theorem C2_alias_resolution (s : Service) :
    (∀ n h, s.handlers n = some h → s.getHandler n = some h) ∧
    (∀ n t, s.handlers n = none → s.mappings n = some t → s.getHandler n = s.handlers t) ∧
    (∀ n, s.handlers n = none → s.mappings n = none → s.getHandler n = none) ∧
    (∀ F T h s1 s2, s.handlers F = none →
      s.Mapping F T = some s1 → s1.Register T h [] = some s2 →
      s2.getHandler F = some h) ∧
    (∀ F T h s1 s2 s3, s.handlers F = none →
      s.Mapping F T = some s1 → s1.Register T h [] = some s2 →
      s2.Unregister T = some s3 → s3.getHandler F = none) := by
  refine ⟨?_, ?_, ?_, ?_, ?_⟩
  · intro n h hh
    exact Service.getHandler_of_handlers_eq_some hh
  · intro n t hh hm
    rw [Service.getHandler_of_handlers_eq_none hh, hm]
  · intro n hh hm
    rw [Service.getHandler_of_handlers_eq_none hh, hm]
  · intro F T h s1 s2 hF hmap hreg
    obtain ⟨-, -, rfl⟩ := Service.Mapping_eq_some_iff.mp hmap
    obtain ⟨-, rfl⟩ := Service.Register_eq_some_iff.mp hreg
    by_cases hFT : F = T
    · subst hFT
      exact Service.getHandler_of_handlers_eq_some (by simp)
    · rw [Service.getHandler_of_handlers_eq_none (by simp [hFT, hF])]
      simp [hFT]
  · intro F T h s1 s2 s3 hF hmap hreg hunreg
    obtain ⟨-, -, rfl⟩ := Service.Mapping_eq_some_iff.mp hmap
    obtain ⟨-, rfl⟩ := Service.Register_eq_some_iff.mp hreg
    obtain ⟨-, rfl⟩ := Service.Unregister_eq_some_iff.mp hunreg
    by_cases hFT : F = T
    · subst hFT
      rw [Service.getHandler_of_handlers_eq_none (by simp)]
      simp
    · rw [Service.getHandler_of_handlers_eq_none (by simp [hFT, hF])]
      simp [hFT]

/-- C2 witness: the theorem applied to a concrete registry (one registered
action "b" and one additional alias hop "b" -> "c" that resolution must not
follow), exercised at concrete names. -/
theorem C2_witness :
    ((NewService.registerD "b" handlerNoop []).mappingD "b" "c").handlers "b"
        = some handlerNoop ∧
    ((NewService.registerD "b" handlerNoop []).mappingD "b" "c").getHandler "b"
        = some handlerNoop := by
  refine ⟨rfl, ?_⟩
  exact (C2_alias_resolution
    ((NewService.registerD "b" handlerNoop []).mappingD "b" "c")).1 "b" handlerNoop rfl

/-! ## C3 -/

/-- Scenario helper: append a tag to the string log kept in the Data slot. -/
def logTag (c : Context) (tag : String) : Context :=
  let prev := match c.core.Data with
              | some (.str s) => s
              | _ => ""
  { c with core := { c.core with Data := some (.str (prev ++ " " ++ tag)) } }

/-- Scenario helper: a logging middleware recording entry before and exit
after the handler it wraps. -/
def mwLog (name : String) : Middleware := fun next => fun c =>
  let (c, err) := next (logTag c (name ++ ".in"))
  (logTag c (name ++ ".out"), err)

/-- Scenario helper: a logging handler. -/
def handlerLog : Handler := fun c => (logTag c "handler", none)

/-- Scenario helper: a fresh context carrying just an action name. -/
def ctxWithAction (a : String) : Context :=
  { NewContext with core := { NewContext.core with Action := a } }

/-- C3: after Use(M1, M2) on a service with no prior global middlewares, the
composed top-level handler is exactly M1 (M2 base-dispatch) - M1 outermost,
so M1 runs first on the way in and last on the way out, and M2's
post-handler code runs before M1's. Use accumulates onto the global list
(never replaces it) and the composition is always the fold of the whole
updated list around the base dispatch. Per-action middlewares given to
Register wrap that action's handler last-to-first at registration time, and
base dispatch invokes that stored wrapped handler - nested inside the global
chain. -/
theorem C3_middleware_composition (s : Service) (M1 M2 : Middleware) :
    ((s.Use [M1, M2]).mws = s.mws ++ [M1, M2]) ∧
    (s.mws = [] →
      (s.Use [M1, M2]).composedHandler = M1 (M2 ((s.Use [M1, M2]).handleRequest))) ∧
    (∀ ms1 ms2 : List Middleware,
      ((s.Use ms1).Use ms2).mws = s.mws ++ ms1 ++ ms2 ∧
      ((s.Use ms1).Use ms2).composedHandler
        = (s.mws ++ ms1 ++ ms2).foldr (fun m h => m h) (((s.Use ms1).Use ms2).handleRequest)) ∧
    (∀ name h mws s', s.Register name h mws = some s' →
      s'.handlers name = some (mws.foldr (fun m hh => m hh) h)) ∧
    (∀ name h mws s' c, s.Register name h mws = some s' → c.core.Action = name →
      name ≠ "" → s'.handleRequest c = (mws.foldr (fun m hh => m hh) h) c) := by
  refine ⟨rfl, ?_, ?_, ?_, ?_⟩
  · intro hmws
    simp [Service.Use, Service.composedHandler, hmws]
  · intro ms1 ms2
    exact ⟨by simp [Service.Use], by simp [Service.Use, Service.composedHandler]⟩
  · intro name h mws s' hreg
    obtain ⟨-, rfl⟩ := Service.Register_eq_some_iff.mp hreg
    simp
  · intro name h mws s' c hreg hact hname
    obtain ⟨-, rfl⟩ := Service.Register_eq_some_iff.mp hreg
    unfold Service.handleRequest
    rw [hact, if_neg hname,
      Service.getHandler_of_handlers_eq_some (h := mws.foldr (fun m hh => m hh) h) (by simp)]

/-- C3 witness: the theorem applied at two concrete logging middlewares over
a fresh service; the composed handler on a concrete context records the
order M1-in, M2-in, handler, M2-out, M1-out in the context's Data slot. -/
theorem C3_witness :
    ((NewService.Use [mwLog "M1", mwLog "M2"]).composedHandler
        = mwLog "M1" (mwLog "M2" ((NewService.Use [mwLog "M1", mwLog "M2"]).handleRequest))) ∧
    (((NewService.registerD "act" handlerLog []).Use
        [mwLog "M1", mwLog "M2"]).composedHandler (ctxWithAction "act")).1.core.Data
      = some (.str " M1.in M2.in handler M2.out M1.out") := by
  refine ⟨(C3_middleware_composition NewService (mwLog "M1") (mwLog "M2")).2.1 rfl, rfl⟩

/-! ## C4 -/

theorem append_newline_length_ne_zero (s : String) : (s ++ "\n").length ≠ 0 := by
  rw [String.length_append]
  exact Nat.succ_ne_zero _

theorem newline_length : "\n".length = 1 := rfl

/-- Scenario helper: a handler that flushes a 204 header and writes no
bytes at all. -/
def handlerWriteHeaderOnly : Handler := fun c => (c.WriteHeader 204, none)

/-- C4 counterexample: the claim's trigger "no bytes have been written to
the transport" is not what the code checks - the dispatcher checks the
wrote flag, which a WriteHeader-only handler sets without writing any byte.
For the action "a" whose handler only calls WriteHeader(204), the chain
returns with zero bytes written, yet no Respond is forced: the transport
sees an empty body (no envelope at all) and status 204. -/
theorem C4_counterexample :
    ((NewService.registerD "a" handlerWriteHeaderOnly []).ServeHTTP RawResponse.empty
      { Method := "GET", Header := [("X-Action", "a")], query := [],
        ContentLength := 0, Body := none }).2.body = "" ∧
    ((NewService.registerD "a" handlerWriteHeaderOnly []).ServeHTTP RawResponse.empty
      { Method := "GET", Header := [("X-Action", "a")], query := [],
        ContentLength := 0, Body := none }).2.status = some 204 := by
  constructor <;> decide

/-- C4 (amended): if, after the middleware chain returns (with or without an
error), the response has not been started - the wrote flag is unset, which
in particular means no bytes were written - the dispatcher forces
Respond(nil, err) (a nil error rendering a success envelope with no
payload), so every such request emits exactly one envelope; if the flag is
set the dispatcher adds nothing. A request whose action name is empty or
resolves to no handler invokes no handler, and on a default service it
yields an envelope carrying an InvalidAction error descriptor with HTTP
status 200. -/
theorem C4_ensure_responded (s : Service) (c c' : Context) (err : Option GoError) :
    (s.composedHandler c = (c', err) → c'.core.res.Wrote = false →
      s.runChain c = (c'.Respond none err).1) ∧
    (s.composedHandler c = (c', err) → c'.core.res.Wrote = true →
      s.runChain c = c') ∧
    (c.core.Action = "" →
      s.handleRequest c = (c, some (.typed (ErrInvalidAction.WithMessage "no action")))) ∧
    (∀ r : Request, headerGet r.Header "X-Action" = "" → valuesGet r.query "Action" = "" →
      (NewService.ServeHTTP RawResponse.empty r).2.status = some 200 ∧
      (NewService.ServeHTTP RawResponse.empty r).2.body =
        (respEnvelope (headerGet r.Header "X-Request-Id")
          (ErrInvalidAction.WithMessage "no action") none).render ++ "\n") ∧
    (∀ r : Request, headerGet r.Header "X-Action" ≠ "" →
      NewService.handlers (headerGet r.Header "X-Action") = none →
      (NewService.ServeHTTP RawResponse.empty r).2.status = some 200 ∧
      (NewService.ServeHTTP RawResponse.empty r).2.body =
        (respEnvelope (headerGet r.Header "X-Request-Id")
          (ErrInvalidAction.WithMessage
            ("invalid action '" ++ headerGet r.Header "X-Action" ++ "'")) none).render
          ++ "\n") := by
  refine ⟨?_, ?_, ?_, ?_, ?_⟩
  · intro hch hw
    simp [Service.runChain, hch, hw]
  · intro hch hw
    simp [Service.runChain, hch, hw]
  · intro ha
    simp [Service.handleRequest, ha]
  · intro r hA hQ
    have hrun : (NewService.ServeHTTP RawResponse.empty r).2 =
        { header := setContentType [] MIMEApplicationJSONCharsetUTF8
          status := some 200
          body := (respEnvelope (headerGet r.Header "X-Request-Id")
            (ErrInvalidAction.WithMessage "no action") none).render ++ "\n" } := by
      simp [Service.ServeHTTP, NewService, HttpSvc.NewContext, Context.SetReqResp,
        Context.GetReqHeader, Context.GetQuery, Context.Query, Service.runChain,
        Service.composedHandler, Service.handleRequest, hA, hQ, Context.Respond,
        classifyRespondErr, ErrInvalidAction, Error.WithMessage, Context.JSON,
        Context.Stream, responseWriter.WriteHeader, responseWriter.Write,
        newResponseWriter, respEnvelope, RawResponse.empty, newline_length]
    rw [hrun]
    exact ⟨rfl, rfl⟩
  · intro r hA hH
    have hrun : (NewService.ServeHTTP RawResponse.empty r).2 =
        { header := setContentType [] MIMEApplicationJSONCharsetUTF8
          status := some 200
          body := (respEnvelope (headerGet r.Header "X-Request-Id")
            (ErrInvalidAction.WithMessage
              ("invalid action '" ++ headerGet r.Header "X-Action" ++ "'")) none).render
            ++ "\n" } := by
      simp [Service.ServeHTTP, NewService, HttpSvc.NewContext, Context.SetReqResp,
        Context.GetReqHeader, Context.GetQuery, Context.Query, Service.runChain,
        Service.composedHandler, Service.handleRequest, Service.getHandler, hA, hH,
        Context.Respond, classifyRespondErr, ErrInvalidAction, Error.WithMessage,
        Context.JSON, Context.Stream, responseWriter.WriteHeader, responseWriter.Write,
        newResponseWriter, respEnvelope, RawResponse.empty, newline_length]
    rw [hrun]
    exact ⟨rfl, rfl⟩

/-- C4 witness: the amended theorem applied to a concrete request with
neither an X-Action header nor an Action query parameter. -/
theorem C4_witness :
    (NewService.ServeHTTP RawResponse.empty
        { Method := "GET", Header := [], query := [], ContentLength := 0,
          Body := none }).2.status = some 200 ∧
    (NewService.ServeHTTP RawResponse.empty
        { Method := "GET", Header := [], query := [], ContentLength := 0,
          Body := none }).2.body =
      (respEnvelope (headerGet [] "X-Request-Id")
        (ErrInvalidAction.WithMessage "no action") none).render ++ "\n" :=
  (C4_ensure_responded NewService NewContext NewContext none).2.2.2.1
    { Method := "GET", Header := [], query := [], ContentLength := 0, Body := none }
    (by decide) (by decide)

/-! ## C5 -/

theorem string_eq_empty_of_length_eq_zero {b : String} (h : b.length = 0) : b = "" := by
  cases b with
  | mk data =>
    cases data with
    | nil => rfl
    | cons a l => simp [String.length] at h

theorem responseWriter.WriteHeader_of_wrote {r : responseWriter} (hw : r.Wrote = true)
    (code : Nat) : r.WriteHeader code = r := by
  simp [responseWriter.WriteHeader, hw]

theorem responseWriter.Write_body (r : responseWriter) (b : String) :
    ((r.Write b).1).ResponseWriter.body = r.ResponseWriter.body ++ b := by
  unfold responseWriter.Write
  by_cases hb : b.length = 0
  · obtain rfl := string_eq_empty_of_length_eq_zero hb
    simp
  · simp only [hb, if_neg, ite_false]
    unfold responseWriter.WriteHeader
    by_cases hw : r.Wrote <;> simp [hw]

theorem responseWriter.Write_status_of_wrote {r : responseWriter} (hw : r.Wrote = true)
    (b : String) :
    ((r.Write b).1).Status = r.Status ∧
    ((r.Write b).1).ResponseWriter.status = r.ResponseWriter.status ∧
    ((r.Write b).1).Wrote = true := by
  unfold responseWriter.Write
  by_cases hb : b.length = 0 <;>
    simp [hb, responseWriter.WriteHeader_of_wrote hw, hw]

theorem responseWriter.Write_wrote_of_ne {r : responseWriter} {b : String}
    (hb : b.length ≠ 0) : ((r.Write b).1).Wrote = true := by
  unfold responseWriter.Write
  simp only [hb, if_neg, ite_false]
  unfold responseWriter.WriteHeader
  by_cases hw : r.Wrote <;> simp [hw]

/-- A Respond on the default render path always flushes the header: the
rendered envelope is never empty (it ends with the encoder's newline). -/
theorem Context.Respond_default_wrote {c : Context} (hr : c.Render = none)
    (d : Option JValue) (e : Option GoError) :
    ((c.Respond d e).1).core.res.Wrote = true := by
  simp only [Context.Respond, hr, Context.JSON, Context.Stream]
  exact responseWriter.Write_wrote_of_ne (append_newline_length_ne_zero _)

/-- Respond on the default render path does not change the hooks. -/
theorem Context.Respond_default_render {c : Context} (hr : c.Render = none)
    (d : Option JValue) (e : Option GoError) :
    ((c.Respond d e).1).Render = none := by
  simp only [Context.Respond, hr, Context.JSON, Context.Stream]

/-- C5: response finalization is idempotent. Once the wrote flag is set, any
later WriteHeader call from any layer is ignored outright - the wrapper is
returned unchanged, so only the first call sets the status - and a second
Respond on an already-responded Context leaves the bytes already sent to the
transport in place (the transport body keeps them as its prefix) and leaves
both the recorded status code and the status sent to the transport
unchanged. -/
theorem C5_idempotent_finalization (w : responseWriter) (code : Nat) (c : Context)
    (d d' : Option JValue) (e e' : Option GoError) :
    (w.Wrote = true → w.WriteHeader code = w) ∧
    (c.Render = none →
      (((c.Respond d e).1.Respond d' e').1.core.res.Status
          = ((c.Respond d e).1).core.res.Status ∧
       ((c.Respond d e).1.Respond d' e').1.core.res.ResponseWriter.status
          = ((c.Respond d e).1).core.res.ResponseWriter.status ∧
       ∃ extra, (((c.Respond d e).1.Respond d' e').1).core.res.ResponseWriter.body
          = ((c.Respond d e).1).core.res.ResponseWriter.body ++ extra)) := by
  refine ⟨fun hw => responseWriter.WriteHeader_of_wrote hw code, fun hr => ?_⟩
  have h1 : ((c.Respond d e).1).core.res.Wrote = true :=
    Context.Respond_default_wrote hr d e
  have h2 : ((c.Respond d e).1).Render = none :=
    Context.Respond_default_render hr d e
  set c1 := (c.Respond d e).1 with hc1
  simp only [Context.Respond, h2, Context.JSON, Context.Stream]
  have hwrote : ({ c1.core.res with
      ResponseWriter := { c1.core.res.ResponseWriter with
        header := setContentType c1.core.res.ResponseWriter.header
          MIMEApplicationJSONCharsetUTF8 } } : responseWriter).Wrote = true := h1
  rw [responseWriter.WriteHeader_of_wrote hwrote]
  refine ⟨(responseWriter.Write_status_of_wrote hwrote _).1,
    (responseWriter.Write_status_of_wrote hwrote _).2.1, _, responseWriter.Write_body _ _⟩

/-- C5 witness: the theorem applied to a concrete already-responded context:
a fresh context (Render unset) that has already responded once. -/
theorem C5_witness :
    ((NewContext.Respond none none).1.Respond (some (.str "late")) none).1.core.res.Status
        = ((NewContext.Respond none none).1).core.res.Status ∧
    ((NewContext.Respond none none).1.Respond (some (.str "late"))
        none).1.core.res.ResponseWriter.status
        = ((NewContext.Respond none none).1).core.res.ResponseWriter.status ∧
    ∃ extra, (((NewContext.Respond none none).1.Respond (some (.str "late"))
        none).1).core.res.ResponseWriter.body
        = ((NewContext.Respond none none).1).core.res.ResponseWriter.body ++ extra :=
  (C5_idempotent_finalization (newResponseWriter RawResponse.empty) 200 NewContext
    none (some (.str "late")) none none).2 rfl

/-! ## C6 -/

/-- C6: Respond classifies the error value into the envelope's error
descriptor: nil gives the empty descriptor, a value of the typed Error kind
is copied verbatim, a value exposing the CodeError capability contributes
the descriptor it produces, and any other error gives a ServerError
descriptor carrying its message text. The classified descriptor is exactly
what reaches the envelope: with a Render hook it is handed to the hook
inside the Response, and on the default path it is encoded by respEnvelope.
Success(d) is exactly Respond(d, nil) and Failure(e) is exactly
Respond(nil, e). -/
theorem C6_respond_classification (c : Context) (d : Option JValue) (er : Error)
    (msg : String) (e : Option GoError) :
    (classifyRespondErr none = { Code := "", Message := "" }) ∧
    (classifyRespondErr (some (.typed er)) = er) ∧
    (classifyRespondErr (some (.codeErr er msg)) = er) ∧
    (classifyRespondErr (some (.other msg)) = ErrServerError.WithMessage msg) ∧
    (∀ render, c.Render = some render →
      c.Respond d e =
        ({ c with core := (render c.core
            { RequestId := c.core.RequestID, Error := classifyRespondErr e, Data := d }).1 },
         (render c.core
            { RequestId := c.core.RequestID, Error := classifyRespondErr e, Data := d }).2)) ∧
    (c.Render = none →
      c.Respond d e = c.JSON (respEnvelope c.core.RequestID (classifyRespondErr e) d)) ∧
    (c.Success d = c.Respond d none) ∧
    (∀ e2, c.Failure e2 = c.Respond none e2) := by
  refine ⟨rfl, rfl, rfl, rfl, ?_, ?_, rfl, fun _ => rfl⟩
  · intro render hr
    simp [Context.Respond, hr]
  · intro hr
    simp [Context.Respond, hr]

/-- C6 witness: the theorem applied to a concrete context with a recording
Render hook and a concrete CodeError-capable error value: the hook receives
exactly the produced descriptor in the envelope. -/
theorem C6_witness :
    ({ NewContext with Render := some (fun core resp =>
        ({ core with Data := some (.str resp.Error.Code) }, none)) } : Context).Respond
        none (some (.codeErr { Code := "Busy", Message := "try later" } "busy")) =
      ({ ({ NewContext with Render := some (fun core resp =>
            ({ core with Data := some (.str resp.Error.Code) }, none)) } : Context) with
          core := { NewContext.core with Data := some (.str "Busy") } }, none) := by
  have h := (C6_respond_classification
    ({ NewContext with Render := some (fun core resp =>
        ({ core with Data := some (.str resp.Error.Code) }, none)) } : Context)
    none { Code := "Busy", Message := "try later" } "busy"
    (some (.codeErr { Code := "Busy", Message := "try later" } "busy"))).2.2.2.2.1
    (fun core resp => ({ core with Data := some (.str resp.Error.Code) }, none)) rfl
  exact h

/-! ## C7 -/

/-- C7: Bind dispatches to the custom Binder override when set; otherwise a
GET request binds from the (parsed and cached) query parameters via
BindURLValues, a POST request with positive content length binds from the
request body via the default body codec, and any other method returns an
UnsupportedProtocol failure at once - its result does not depend on the
SetDefault or Validate hooks, which are therefore not invoked. After a
successful structural bind the SetDefault hook runs (when set), then - only
if that succeeded - the Validate hook; a structural error skips both. The
final wrapping switch passes nil and typed Error values through unchanged
and wraps every other error (from structural binding, default-filling or
validation alike) into an InvalidParameter descriptor carrying the original
message text. -/
theorem C7_bind (c : Context) (v : BindTarget) (r : Request)
    (hreq : c.core.req = some r) :
    (∀ b, c.Binder = some b →
      c.Bind v = c.bindPost (b c.core v).1 (b c.core v).2) ∧
    (c.Binder = none → r.Method = "GET" →
      c.Bind v = (c.Query).1.bindPost (BindURLValues v (c.Query).2 "query").1
        (BindURLValues v (c.Query).2 "query").2) ∧
    (c.Binder = none → r.Method = "POST" → r.ContentLength > 0 →
      c.Bind v = c.bindPost (jsonDecodeBody r.Body v).1 (jsonDecodeBody r.Body v).2) ∧
    (c.Binder = none → r.Method = "POST" → ¬r.ContentLength > 0 →
      c.Bind v = c.bindPost v none) ∧
    (c.Binder = none → r.Method ≠ "GET" → r.Method ≠ "POST" →
      c.Bind v = (c, v, some (.typed (ErrUnsupportedProtocol.WithMessage
        ("unsupported method '" ++ r.Method ++ "'"))))) ∧
    (∀ err, c.SetDefault = none → c.Validate = none →
      c.bindPost v err = (c, v, wrapBindErr err)) ∧
    (∀ sd vl, c.SetDefault = some sd → c.Validate = some vl → (sd v).2 = none →
      c.bindPost v none = (c, (sd v).1, wrapBindErr (vl (sd v).1))) ∧
    (∀ sd e2, c.SetDefault = some sd → (sd v).2 = some e2 →
      c.bindPost v none = (c, (sd v).1, wrapBindErr (some e2))) ∧
    (∀ e2, c.bindPost v (some e2) = (c, v, wrapBindErr (some e2))) ∧
    (wrapBindErr none = none) ∧
    (∀ er, wrapBindErr (some (.typed er)) = some (.typed er)) ∧
    (∀ m, wrapBindErr (some (.other m)) =
      some (.typed (ErrInvalidParameter.WithMessage m))) ∧
    (∀ er m, wrapBindErr (some (.codeErr er m)) =
      some (.typed (ErrInvalidParameter.WithMessage m))) := by
  refine ⟨?_, ?_, ?_, ?_, ?_, ?_, ?_, ?_, fun _ => rfl, rfl, fun _ => rfl,
    fun _ => rfl, fun _ _ => rfl⟩
  · intro b hb
    simp [Context.Bind, hb]
  · intro hb hm
    simp [Context.Bind, hb, hreq, hm]
  · intro hb hm hcl
    simp [Context.Bind, hb, hreq, hm, hcl]
  · intro hb hm hcl
    simp [Context.Bind, hb, hreq, hm, hcl]
  · intro hb hg hp
    simp [Context.Bind, hb, hreq, hg, hp]
  · intro err hsd hvl
    cases err <;> simp [Context.bindPost, hsd, hvl]
  · intro sd vl hsd hvl h2
    simp [Context.bindPost, hsd, hvl, h2]
  · intro sd e2 hsd h2
    simp [Context.bindPost, hsd, h2]

/-- Scenario helper: a concrete GET request carrying the query Name=test. -/
def reqC7 : Request :=
  { Method := "GET", Header := [], query := [("Name", "test")],
    ContentLength := 0, Body := none }

/-- Scenario helper: a fresh context bound to that request. -/
def ctxC7 : Context :=
  { NewContext with core := { NewContext.core with req := some reqC7 } }

/-- C7 witness: the theorem applied to a concrete GET request with query
Name=test and no hooks; the bind goes through the query path and fills the
Name field with "test". -/
theorem C7_witness :
    (ctxC7.Bind [("Name", JValue.null)]
        = (ctxC7.Query).1.bindPost
            (BindURLValues [("Name", JValue.null)] (ctxC7.Query).2 "query").1
            (BindURLValues [("Name", JValue.null)] (ctxC7.Query).2 "query").2) ∧
    ctxC7.Bind [("Name", JValue.null)]
        = ((ctxC7.Query).1, [("Name", JValue.str "test")], none) :=
  ⟨(C7_bind ctxC7 [("Name", JValue.null)] reqC7 rfl).2.1 rfl rfl, rfl⟩

/-! ## C8 -/

/-- C8: the envelope encoding used by Respond round-trips with exact
field-presence fidelity. The Error field is present exactly when the
descriptor's code is non-empty (so an empty descriptor encodes with no Error
field), RequestId is present exactly when non-empty, Data exactly when
non-nil, and decoding the encoded envelope back into the exported Response
struct recovers all three fields (the empty-descriptor and non-empty-code
cases named by the claim). -/
theorem C8_envelope_roundtrip (rid : String) (e : Error) (d : Option JValue)
    (he : e = { Code := "", Message := "" } ∨ e.Code ≠ "") :
    ((respEnvelope rid e d).hasField "Error" = true ↔ e.Code ≠ "") ∧
    ((respEnvelope rid e d).hasField "RequestId" = true ↔ rid ≠ "") ∧
    ((respEnvelope rid e d).hasField "Data" = true ↔ d.isSome) ∧
    decodeResponse (respEnvelope rid e d) =
      some { RequestId := rid, Error := e, Data := d } := by
  rcases he with rfl | hcode
  · refine ⟨?_, ?_, ?_, ?_⟩ <;>
      by_cases hrid : rid = "" <;> cases d <;>
        simp [respEnvelope, JValue.hasField, JValue.getField, decodeResponse,
          hrid, List.lookup]
  · refine ⟨?_, ?_, ?_, ?_⟩ <;>
      by_cases hrid : rid = "" <;> cases d <;>
        simp [respEnvelope, JValue.hasField, JValue.getField, decodeResponse,
          hrid, hcode, List.lookup]

/-- C8 witness: the theorem applied at a concrete envelope with a non-empty
error code, a request id and a payload. -/
theorem C8_witness :
    ((respEnvelope "r1" { Code := "C", Message := "M" } (some (.str "x"))).hasField
        "Error" = true ↔ ({ Code := "C", Message := "M" } : Error).Code ≠ "") ∧
    ((respEnvelope "r1" { Code := "C", Message := "M" } (some (.str "x"))).hasField
        "RequestId" = true ↔ ("r1" : String) ≠ "") ∧
    ((respEnvelope "r1" { Code := "C", Message := "M" } (some (.str "x"))).hasField
        "Data" = true ↔ (some (JValue.str "x")).isSome) ∧
    decodeResponse (respEnvelope "r1" { Code := "C", Message := "M" } (some (.str "x"))) =
      some { RequestId := "r1", Error := { Code := "C", Message := "M" },
             Data := some (.str "x") } :=
  C8_envelope_roundtrip "r1" { Code := "C", Message := "M" } (some (.str "x"))
    (Or.inr (by decide))

/-! ## C9 -/

/-- Scenario helper: a handler that stores a value in the user Data slot and
writes nothing (the dispatcher's fallback envelope responds for it). -/
def handlerPutData : Handler := fun c =>
  ({ c with core := { c.core with Data := some (.str "x") } }, none)

/-- Scenario helper: a handler that responds with whatever the Data slot
holds when the request starts. -/
def handlerGetData : Handler := fun c => c.Respond c.core.Data none

/-- Scenario helper: a service with the two Data-probing actions. -/
def svcC9 : Service :=
  (NewService.registerD "put" handlerPutData []).registerD "get" handlerGetData []

/-- Scenario helper: a request selecting an action via the X-Action header. -/
def reqAction (a : String) : Request :=
  { Method := "GET", Header := [("X-Action", a)], query := [],
    ContentLength := 0, Body := none }

/-- Scenario helper: the literal value of the pooled context after the
"put" request: Data retained, Action retained, request detached, writer
fresh. -/
def ctxAfterPut : Context :=
  { core :=
      { Action := "put", Version := "", RequestID := "",
        Data := some (.str "x"), req := none,
        res := newResponseWriter RawResponse.empty, query := none },
    Binder := none, SetDefault := none, Validate := none, Render := none }

/-- Scenario helper: the service state after the "put" request, spelled with
the literal pooled context. -/
def svcC9mid : Service := { svcC9 with ctxpool := [ctxAfterPut] }

set_option maxHeartbeats 1000000 in
theorem svcC9_after_put :
    (svcC9.ServeHTTP RawResponse.empty (reqAction "put")).1 = svcC9mid := rfl

set_option maxHeartbeats 1000000 in
/-- C9: the per-request reset clears only the request reference, the cached
query values and the response-writer state (fresh wrapper: wrote flag,
status, byte count); Action, Version, RequestID, the user Data slot and the
four hook fields are left unchanged. Consequently (pool scenario) a value
stored in Data while serving one request is still present in the pooled
context, is observed by a later request served by the same pooled context
(the "get" response carries it), and Action is only overwritten by the next
request's metadata population. -/
theorem C9_reset_frame :
    (∀ c : Context,
      c.reset.core.req = none ∧
      c.reset.core.query = none ∧
      c.reset.core.res = newResponseWriter RawResponse.empty ∧
      c.reset.core.Action = c.core.Action ∧
      c.reset.core.Version = c.core.Version ∧
      c.reset.core.RequestID = c.core.RequestID ∧
      c.reset.core.Data = c.core.Data ∧
      c.reset.Binder = c.Binder ∧
      c.reset.SetDefault = c.SetDefault ∧
      c.reset.Validate = c.Validate ∧
      c.reset.Render = c.Render) ∧
    ((svcC9.ServeHTTP RawResponse.empty (reqAction "put")).1.ctxpool.map
        (fun c => c.core.Data) = [some (.str "x")]) ∧
    ((svcC9.ServeHTTP RawResponse.empty (reqAction "put")).1.ctxpool.map
        (fun c => c.core.Action) = ["put"]) ∧
    (((svcC9.ServeHTTP RawResponse.empty (reqAction "put")).1.ServeHTTP
        RawResponse.empty (reqAction "get")).2.body
      = (respEnvelope "" { Code := "", Message := "" } (some (.str "x"))).render
          ++ "\n") ∧
    (((svcC9.ServeHTTP RawResponse.empty (reqAction "put")).1.ServeHTTP
        RawResponse.empty (reqAction "get")).1.ctxpool.map (fun c => c.core.Action)
      = ["get"]) := by
  refine ⟨?_, ?_, ?_, ?_, ?_⟩
  · intro c
    exact ⟨rfl, rfl, rfl, rfl, rfl, rfl, rfl, rfl, rfl, rfl, rfl⟩
  · rw [svcC9_after_put]
    rfl
  · rw [svcC9_after_put]
    rfl
  · rw [svcC9_after_put]
    decide
  · rw [svcC9_after_put]
    decide

end HttpSvc
